import Mathlib

/-!
Verification of the cosmos-analyzer-shipper (walship) core against its
natural-language specification.

The Go sources are embedded shallowly:
* `time.Duration` values become `Int` nanosecond counts;
* Go `int` values become `Int`, Go `uint64` becomes `Nat`;
* Go `float64` threshold fields are carried as `ℚ` (no claim depends on
  their floating-point representation, they are only shown unchanged);
* fallible operations return `Except`/`Option`.

Components whose implementation is not part of the provided sources (the
cursor store writer, the batcher and the orchestrator loop; only their
interfaces, tests and callers are) are modelled from the spec; their doc
comments say so explicitly.
-/

namespace Walship

/-! ### Time units (Go `time.Duration` is an `int64` count of nanoseconds) -/

def nsPerMillisecond : Int := 1000000

def nsPerSecond : Int := 1000000000

/-! ### Config (pkg/walship config source file, `Config` / `DefaultConfig` /
`Validate` / `SetDefaults`) -/

/-- The `DefaultServiceURL` constant from the config source file. -/
def DefaultServiceURL : String := "https://api.apphash.io"

/-- Go `Config` struct, field for field. -/
structure Config where
  NodeHome : String
  WALDir : String
  AuthKey : String
  ServiceURL : String
  ChainID : String
  NodeID : String
  PollInterval : Int
  SendInterval : Int
  HardInterval : Int
  HTTPTimeout : Int
  MaxBatchBytes : Int
  StateDir : String
  CPUThreshold : ℚ
  NetThreshold : ℚ
  Iface : String
  IfaceSpeedMbps : Int
  Verify : Bool
  Meta : Bool
  Once : Bool
deriving Repr, DecidableEq

/-- Go `DefaultConfig()`: fields absent from the Go composite literal keep their
zero value. `4 << 20` is written `4 * 1048576`. -/
def DefaultConfig : Config where
  NodeHome := ""
  WALDir := ""
  AuthKey := ""
  ServiceURL := DefaultServiceURL
  ChainID := ""
  NodeID := ""
  PollInterval := 500 * nsPerMillisecond
  SendInterval := 5 * nsPerSecond
  HardInterval := 10 * nsPerSecond
  HTTPTimeout := 15 * nsPerSecond
  MaxBatchBytes := 4 * 1048576
  StateDir := ""
  CPUThreshold := 85 / 100
  NetThreshold := 70 / 100
  Iface := ""
  IfaceSpeedMbps := 1000
  Verify := false
  Meta := false
  Once := false

/-- The single error kind of the config source file: every validation error
wraps `domain.ErrInvalidConfig` with a message. -/
inductive ConfigError where
  | invalidConfig (msg : String)
deriving Repr, DecidableEq

/-- First mutation of `Config.Validate`: derive `WALDir` from `NodeHome`
(and `NodeID`) when unset. -/
def deriveWALDir (c : Config) : Config :=
  if c.WALDir = "" then
    if c.NodeID ≠ "" then
      { c with WALDir := c.NodeHome ++ "/data/log.wal/node-" ++ c.NodeID }
    else
      { c with WALDir := c.NodeHome ++ "/data/log.wal/node-default" }
  else c

/-- Second mutation of `Config.Validate`: default `StateDir` to `WALDir`. -/
def deriveStateDir (c : Config) : Config :=
  if c.StateDir = "" ∧ c.WALDir ≠ "" then { c with StateDir := c.WALDir } else c

/-- Third mutation of `Config.Validate`: default `ServiceURL`. -/
def defaultURLStep (c : Config) : Config :=
  if c.ServiceURL = "" then { c with ServiceURL := DefaultServiceURL } else c

/-- Fourth mutation of `Config.Validate`: strip one trailing slash
(`c.ServiceURL = c.ServiceURL[:len(c.ServiceURL)-1]` guarded by a last-byte
check). -/
def stripSlashStep (c : Config) : Config :=
  if 0 < c.ServiceURL.length ∧ c.ServiceURL.back = '/' then
    { c with ServiceURL := c.ServiceURL.dropRight 1 }
  else c

/-- The four in-place mutations of `Config.Validate`, in source order. -/
def normalizeConfig (c : Config) : Config :=
  stripSlashStep (defaultURLStep (deriveStateDir (deriveWALDir c)))

/-- Go `Config.Validate`: reject when both `WALDir` and `NodeHome` are empty,
then mutate as above, then reject non-positive `PollInterval` or
`SendInterval`; otherwise succeed with the mutated config.  (The mutations
never touch the interval fields, so checking them on the mutated config is
the source's behaviour verbatim.) -/
def Validate (c : Config) : Except ConfigError Config :=
  if c.WALDir = "" ∧ c.NodeHome = "" then
    Except.error (ConfigError.invalidConfig "wal-dir or node-home is required")
  else if (normalizeConfig c).PollInterval ≤ 0 then
    Except.error (ConfigError.invalidConfig "poll interval must be positive")
  else if (normalizeConfig c).SendInterval ≤ 0 then
    Except.error (ConfigError.invalidConfig "send interval must be positive")
  else
    Except.ok (normalizeConfig c)

/-- Restatement of the spec words for the amended C10: exactly one trailing
`'/'` is stripped from a string, if present. -/
def specStripOneTrailingSlash (s : String) : String :=
  if 0 < s.length ∧ s.back = '/' then s.dropRight 1 else s

/-- Concrete valid config for the C4 witness. -/
def cfgWitness : Config := { DefaultConfig with WALDir := "/w" }

/-- What `Validate` makes of `cfgWitness`. -/
def cfgWitnessOut : Config := { DefaultConfig with WALDir := "/w", StateDir := "/w" }

/-- C10 counterexample input: a valid config whose `ServiceURL` ends in two
slashes. -/
def cfgSlash : Config := { DefaultConfig with WALDir := "/w", ServiceURL := "h//" }

/-- What `Validate` makes of `cfgSlash`: only one slash is stripped, so the
resulting `ServiceURL` still ends with `'/'`. -/
def cfgSlashOut : Config :=
  { DefaultConfig with WALDir := "/w", StateDir := "/w", ServiceURL := "h/" }

/-! ### Lifecycle state (src/pkg/walship/state.go) -/

/-- Go `State` is an `int`; the five constants come from `iota`. -/
def StateStopped : Int := 0

def StateStarting : Int := 1

def StateRunning : Int := 2

def StateStopping : Int := 3

def StateCrashed : Int := 4

/-- Go `State.String()`: the `switch` in state.go. -/
def stateString (s : Int) : String :=
  if s = StateStopped then "Stopped"
  else if s = StateStarting then "Starting"
  else if s = StateRunning then "Running"
  else if s = StateStopping then "Stopping"
  else if s = StateCrashed then "Crashed"
  else "Unknown"

/-- Go `State.IsRunning()`. -/
def isRunning (s : Int) : Bool :=
  s == StateRunning

/-- Go `State.CanStart()`: `s == StateStopped || s == StateCrashed`. -/
def canStart (s : Int) : Bool :=
  s == StateStopped || s == StateCrashed

/-- Go `State.CanStop()`: `s == StateRunning || s == StateStarting`. -/
def canStop (s : Int) : Bool :=
  s == StateRunning || s == StateStarting

/-! ### FileSender example (src/pkg/walship/example_custom_sender_test.go) -/

/-- The Unicode code point of the rune `'0' + counter` computed by
`FileSender.Send` (the counter is always positive there, so `Nat` is
faithful). -/
def batchFileRuneCode (counter : Nat) : Nat :=
  '0'.toNat + counter

/-- The file name `"batch_" + string(rune('0'+counter)) + ".json"` written by
`FileSender.Send`. -/
def batchFileName (counter : Nat) : String :=
  "batch_" ++ String.singleton (Char.ofNat (batchFileRuneCode counter)) ++ ".json"

/-- One `FileSender.Send` call: increment the counter, then name the file
after the incremented counter. -/
def fileSenderSend (counter : Nat) : Nat × String :=
  (counter + 1, batchFileName (counter + 1))

/-- Counter value and list of file names produced by the first `k` calls of
`FileSender.Send`, starting from a fresh sender (`counter = 0`). -/
def runSends : Nat → Nat × List String
  | 0 => (0, [])
  | k + 1 =>
    ((fileSenderSend (runSends k).1).1,
      (runSends k).2 ++ [(fileSenderSend (runSends k).1).2])

/-- A Unicode code point is a decimal digit iff it lies in `['0','9']`. -/
def isDecimalDigitCode (c : Nat) : Prop :=
  '0'.toNat ≤ c ∧ c ≤ '9'.toNat

instance (c : Nat) : Decidable (isDecimalDigitCode c) := by
  unfold isDecimalDigitCode
  exact inferInstance

/-! ### Cursor file (`status.json`) and cursor store

The state-package implementation is not among the provided sources — only
its on-disk format (spec §3/§6), the backward-compatibility test
(`TestStateFileBackwardCompatibility`) and the forward-only contract of
spec §4.B are.  The decoder below follows the Go struct of that test
(`encoding/json` semantics: a missing key keeps the zero value, a type
mismatch is a decode error); the writer and `Commit`/`Load` are modelled
from the spec. -/

/-- Minimal JSON value model: a cursor file only ever holds strings and
integers. -/
inductive JVal where
  | str (s : String)
  | num (n : Int)
deriving Repr, DecidableEq

/-- First-match key lookup in a JSON object, represented as an ordered list
of key/value pairs (the documents here have distinct keys). -/
def jLookup : List (String × JVal) → String → Option JVal
  | [], _ => none
  | (k, v) :: rest, key => if k = key then some v else jLookup rest key

/-- The persisted cursor, field for field the Go struct of
`TestStateFileBackwardCompatibility` (timestamps are carried as their
RFC 3339 strings). -/
structure PersistedState where
  idxPath : String
  idxOffset : Int
  curGz : String
  lastFile : String
  lastFrame : Nat
  lastCommitAt : String
  lastSendAt : String
deriving Repr, DecidableEq

/-- Decode a `string`-typed field: missing key keeps the zero value `""`,
a number there is a decode error. -/
def getStr (o : List (String × JVal)) (k : String) : Option String :=
  match jLookup o k with
  | none => some ""
  | some (JVal.str s) => some s
  | some (JVal.num _) => none

/-- Decode an `int64`-typed field: missing key keeps the zero value `0`,
a string there is a decode error. -/
def getInt (o : List (String × JVal)) (k : String) : Option Int :=
  match jLookup o k with
  | none => some (0 : Int)
  | some (JVal.num n) => some n
  | some (JVal.str _) => none

/-- Decode a `uint64`-typed field: missing key keeps the zero value `0`,
a string or a negative number there is a decode error. -/
def getUNat (o : List (String × JVal)) (k : String) : Option Nat :=
  match jLookup o k with
  | none => some (0 : Nat)
  | some (JVal.num n) => if n < 0 then none else some n.toNat
  | some (JVal.str _) => none

/-- Go `json.Unmarshal` into the compatibility-test struct. -/
def decodeState (o : List (String × JVal)) : Option PersistedState := do
  let idxPath ← getStr o "idx_path"
  let idxOffset ← getInt o "idx_offset"
  let curGz ← getStr o "cur_gz"
  let lastFile ← getStr o "last_file"
  let lastFrame ← getUNat o "last_frame"
  let lastCommitAt ← getStr o "last_commit_at"
  let lastSendAt ← getStr o "last_send_at"
  some ⟨idxPath, idxOffset, curGz, lastFile, lastFrame, lastCommitAt, lastSendAt⟩

/-- Modelled from the spec: the cursor writer of the state package (absent
from the provided sources) emits one JSON document with exactly the
snake_case keys of §3, in that order. -/
def encodeState (s : PersistedState) : List (String × JVal) :=
  [("idx_path", JVal.str s.idxPath),
   ("idx_offset", JVal.num s.idxOffset),
   ("cur_gz", JVal.str s.curGz),
   ("last_file", JVal.str s.lastFile),
   ("last_frame", JVal.num (Int.ofNat s.lastFrame)),
   ("last_commit_at", JVal.str s.lastCommitAt),
   ("last_send_at", JVal.str s.lastSendAt)]

/-- The pre-existing state file of `TestStateFileBackwardCompatibility`. -/
def oldStateDoc : List (String × JVal) :=
  [("idx_path", JVal.str "/data/2025-01-01/seg-000001.wal.idx"),
   ("idx_offset", JVal.num 12345),
   ("cur_gz", JVal.str "seg-000001.wal.gz"),
   ("last_file", JVal.str "seg-000001.wal.gz"),
   ("last_frame", JVal.num 42),
   ("last_commit_at", JVal.str "2025-01-01T12:00:00Z"),
   ("last_send_at", JVal.str "2025-01-01T12:00:00Z")]

/-- Modelled from the spec: cursors are compared by `(last_file,
last_frame)`, segment names lexicographically (§3, §4.B). -/
def cursorLE (a b : PersistedState) : Prop :=
  a.lastFile < b.lastFile ∨ (a.lastFile = b.lastFile ∧ a.lastFrame ≤ b.lastFrame)

instance (a b : PersistedState) : Decidable (cursorLE a b) := by
  unfold cursorLE
  exact inferInstance

/-- The cursor store's only error kind relevant here: a rejected rewinding
commit, surfaced as fatal (spec §4.B). -/
inductive StoreError where
  | fatalRewind
deriving Repr, DecidableEq

/-- Modelled from the spec: `Load()` returns the on-disk cursor; a missing
file is "no cursor". -/
def load (st : Option PersistedState) : Option PersistedState := st

/-- Modelled from the spec: `Commit(cursor)` atomically replaces the
on-disk state and rejects as fatal any cursor whose `(last_file,
last_frame)` is strictly below the current on-disk value. -/
def commit (c : PersistedState) (st : Option PersistedState) :
    Except StoreError (Option PersistedState) :=
  match st with
  | none => Except.ok (some c)
  | some cur =>
    if cursorLE cur c then Except.ok (some c)
    else Except.error StoreError.fatalRewind

/-- A sequence of later `Commit` attempts: an accepted commit replaces the
on-disk cursor, a rejected one surfaces as fatal and leaves it unchanged. -/
def runCommits (ops : List PersistedState) (st : Option PersistedState) :
    Option PersistedState :=
  match ops with
  | [] => st
  | o :: rest =>
    match commit o st with
    | Except.ok st' => runCommits rest st'
    | Except.error _ => runCommits rest st

/-- Concrete cursor at frame 5 of the first segment (witness input). -/
def cursorFrame5 : PersistedState :=
  ⟨"/data/2025-01-01/seg-000001.wal.idx", 180, "seg-000001.wal.gz",
   "seg-000001.wal.gz", 5, "2025-01-01T12:00:00Z", "2025-01-01T12:00:00Z"⟩

/-- Concrete cursor at frame 10 of the first segment (witness input). -/
def cursorFrame10 : PersistedState :=
  ⟨"/data/2025-01-01/seg-000001.wal.idx", 360, "seg-000001.wal.gz",
   "seg-000001.wal.gz", 10, "2025-01-01T12:05:00Z", "2025-01-01T12:05:00Z"⟩

/-! ### Batcher (spec §4.C; the batch package implementation is not among
the provided sources — only its interface, tests and callers are). -/

/-- In-memory frame of spec §3; the payload is an opaque byte blob. -/
structure Frame where
  segmentId : String
  frameSeq : Nat
  compressedPayload : List Nat
  uncompressedLength : Nat
  commitTime : Int
deriving Repr, DecidableEq

/-- Compressed size of a frame in bytes. -/
def frameBytes (f : Frame) : Nat := f.compressedPayload.length

/-- Result of `Batcher.Add`; `full` is not an error, it asks the caller to
flush and retry. -/
inductive AddResult where
  | accepted
  | full
deriving Repr, DecidableEq

/-- Modelled from the spec: the batcher accumulates frames in insertion
order under the `max_bytes` bound. -/
structure Batcher where
  maxBytes : Nat
  frames : List Frame
deriving Repr, DecidableEq

/-- The `total_compressed_bytes` of the in-flight batch. -/
def totalBytes (b : Batcher) : Nat := (b.frames.map frameBytes).sum

/-- Modelled from the spec: `Add(frame)` returns `Full` when the batch
would exceed `max_bytes`; a single frame larger than `max_bytes` is
accepted into an empty batch as a one-frame batch (never split). -/
def addFrame (b : Batcher) (f : Frame) : AddResult × Batcher :=
  if b.frames = [] then (AddResult.accepted, { b with frames := [f] })
  else if b.maxBytes < totalBytes b + frameBytes f then (AddResult.full, b)
  else (AddResult.accepted, { b with frames := b.frames ++ [f] })

/-- Close the current batch: emit the accumulated frames and reset. -/
def flushBatch (b : Batcher) : List Frame × Batcher :=
  (b.frames, { b with frames := [] })

/-- Driver operations against the batcher (`Flush` also stands for the
forced close after `Add` reports `Full`). -/
inductive BatchOp where
  | add (f : Frame)
  | flush
deriving Repr, DecidableEq

/-- Run driver operations, collecting every closed batch. -/
def runBatchOps (b : Batcher) : List BatchOp → List (List Frame) × Batcher
  | [] => ([], b)
  | BatchOp.add f :: rest => runBatchOps (addFrame b f).2 rest
  | BatchOp.flush :: rest =>
    let r := runBatchOps (flushBatch b).2 rest
    ((flushBatch b).1 :: r.1, r.2)

/-- The C2 bound: a batch respects `max_bytes` unless it has exactly one
frame. -/
def batchWithinBound (maxB : Nat) (fs : List Frame) : Prop :=
  (fs.map frameBytes).sum ≤ maxB ∨ fs.length = 1

/-- Fresh batcher. -/
def emptyBatcher (maxB : Nat) : Batcher := ⟨maxB, []⟩

/-- A 5-byte frame, oversized for a 4-byte bound (witness input). -/
def bigFrame : Frame := ⟨"seg-000001.wal.gz", 1, [1, 2, 3, 4, 5], 9, 0⟩

/-- A 1-byte frame (witness input). -/
def smallFrame : Frame := ⟨"seg-000001.wal.gz", 2, [7], 2, 1⟩

/-! ### Gate hooks (spec §4.E and §7; the orchestrator implementation is
not among the provided sources — only the `PluginHook` interface is). -/

/-- Outcome of one gate's `BeforeSend`. -/
structure GateResult where
  proceed : Bool
  err : Option String
deriving Repr, DecidableEq

/-- Modelled from the spec: a gate returning an error is treated as
`proceed = false` (and logged); otherwise its own `proceed` stands. -/
def gateEffectiveProceed (g : GateResult) : Bool :=
  match g.err with
  | some _ => false
  | none => g.proceed

/-- Modelled from the spec: multiple gates compose via logical AND on
`proceed`. -/
def beforeSendDecision (gs : List GateResult) : Bool :=
  gs.all gateEffectiveProceed

/-- The sender's verdict on a batch (spec §4.D). -/
inductive SendOutcome where
  | success
  | retryable
  | fatal
deriving Repr, DecidableEq

/-- What one iteration of the orchestrator's send step does. -/
inductive CycleResult where
  | skipped
  | shipped
  | retry
  | crashed
deriving Repr, DecidableEq

/-- Modelled from the spec (§4.F steps 3–4): the batch is sent when the
gates allow it or the hard interval is due; only a `Fatal` sender verdict
crashes; on success the `AfterSend` hooks run and their errors are only
collected into the log, never acted on. -/
def sendCycle (gates : List GateResult) (hardDue : Bool) (outcome : SendOutcome)
    (afterSendErrs : List (Option String)) : CycleResult × List String :=
  if beforeSendDecision gates || hardDue then
    match outcome with
    | SendOutcome.fatal => (CycleResult.crashed, [])
    | SendOutcome.retryable => (CycleResult.retry, [])
    | SendOutcome.success => (CycleResult.shipped, afterSendErrs.filterMap id)
  else (CycleResult.skipped, [])

end Walship

namespace Walship

/-! ## Theorems -/

/-! ### Helper lemmas about the `Validate` normalization steps -/

theorem normalizeConfig_PollInterval (c : Config) :
    (normalizeConfig c).PollInterval = c.PollInterval := by
  unfold normalizeConfig stripSlashStep defaultURLStep deriveStateDir deriveWALDir
  split_ifs <;> rfl

theorem normalizeConfig_SendInterval (c : Config) :
    (normalizeConfig c).SendInterval = c.SendInterval := by
  unfold normalizeConfig stripSlashStep defaultURLStep deriveStateDir deriveWALDir
  split_ifs <;> rfl

theorem normalizeConfig_WALDir (c : Config) :
    (normalizeConfig c).WALDir = (deriveWALDir c).WALDir := by
  unfold normalizeConfig stripSlashStep defaultURLStep deriveStateDir
  split_ifs <;> rfl

theorem deriveWALDir_WALDir (c : Config) :
    (deriveWALDir c).WALDir =
      if c.WALDir = "" then
        if c.NodeID ≠ "" then c.NodeHome ++ "/data/log.wal/node-" ++ c.NodeID
        else c.NodeHome ++ "/data/log.wal/node-default"
      else c.WALDir := by
  unfold deriveWALDir
  split_ifs <;> rfl

theorem deriveWALDir_StateDir (c : Config) :
    (deriveWALDir c).StateDir = c.StateDir := by
  unfold deriveWALDir
  split_ifs <;> rfl

theorem deriveWALDir_ServiceURL (c : Config) :
    (deriveWALDir c).ServiceURL = c.ServiceURL := by
  unfold deriveWALDir
  split_ifs <;> rfl

theorem deriveStateDir_ServiceURL (c : Config) :
    (deriveStateDir c).ServiceURL = c.ServiceURL := by
  unfold deriveStateDir
  split_ifs <;> rfl

theorem defaultURLStep_ServiceURL (c : Config) :
    (defaultURLStep c).ServiceURL =
      if c.ServiceURL = "" then DefaultServiceURL else c.ServiceURL := by
  unfold defaultURLStep
  split_ifs <;> rfl

theorem stripSlashStep_ServiceURL (c : Config) :
    (stripSlashStep c).ServiceURL = specStripOneTrailingSlash c.ServiceURL := by
  unfold stripSlashStep specStripOneTrailingSlash
  split_ifs <;> rfl

theorem stripSlashStep_StateDir (c : Config) :
    (stripSlashStep c).StateDir = c.StateDir := by
  unfold stripSlashStep
  split_ifs <;> rfl

theorem defaultURLStep_StateDir (c : Config) :
    (defaultURLStep c).StateDir = c.StateDir := by
  unfold defaultURLStep
  split_ifs <;> rfl

theorem normalizeConfig_StateDir (c : Config) :
    (normalizeConfig c).StateDir =
      if c.StateDir = "" ∧ (deriveWALDir c).WALDir ≠ "" then (deriveWALDir c).WALDir
      else c.StateDir := by
  unfold normalizeConfig
  rw [stripSlashStep_StateDir, defaultURLStep_StateDir]
  unfold deriveStateDir
  simp only [deriveWALDir_StateDir]
  split_ifs <;> first | rfl | exact deriveWALDir_StateDir c

theorem normalizeConfig_ServiceURL (c : Config) :
    (normalizeConfig c).ServiceURL =
      specStripOneTrailingSlash
        (if c.ServiceURL = "" then DefaultServiceURL else c.ServiceURL) := by
  unfold normalizeConfig
  rw [stripSlashStep_ServiceURL, defaultURLStep_ServiceURL]
  simp only [deriveStateDir_ServiceURL, deriveWALDir_ServiceURL]

theorem normalizeConfig_preserved (c : Config) :
    (normalizeConfig c).NodeHome = c.NodeHome ∧
    (normalizeConfig c).AuthKey = c.AuthKey ∧
    (normalizeConfig c).ChainID = c.ChainID ∧
    (normalizeConfig c).NodeID = c.NodeID ∧
    (normalizeConfig c).HardInterval = c.HardInterval ∧
    (normalizeConfig c).HTTPTimeout = c.HTTPTimeout ∧
    (normalizeConfig c).MaxBatchBytes = c.MaxBatchBytes ∧
    (normalizeConfig c).CPUThreshold = c.CPUThreshold ∧
    (normalizeConfig c).NetThreshold = c.NetThreshold ∧
    (normalizeConfig c).Iface = c.Iface ∧
    (normalizeConfig c).IfaceSpeedMbps = c.IfaceSpeedMbps ∧
    (normalizeConfig c).Verify = c.Verify ∧
    (normalizeConfig c).Meta = c.Meta ∧
    (normalizeConfig c).Once = c.Once := by
  unfold normalizeConfig stripSlashStep defaultURLStep deriveStateDir deriveWALDir
  split_ifs <;>
    exact ⟨rfl, rfl, rfl, rfl, rfl, rfl, rfl, rfl, rfl, rfl, rfl, rfl, rfl, rfl⟩

theorem string_append2_ne_empty (a b : String) (h : b ≠ "") : a ++ b ≠ "" := by
  intro hcontra
  apply h
  have hd : (a ++ b).data = [] := by rw [hcontra]
  simp only [String.data_append] at hd
  rcases List.append_eq_nil.mp hd with ⟨_, h2⟩
  rw [String.ext_iff]
  exact h2

theorem string_append3_ne_empty (a b c : String) (h : b ≠ "") : a ++ b ++ c ≠ "" := by
  intro hcontra
  apply h
  have hd : (a ++ b ++ c).data = [] := by rw [hcontra]
  simp only [String.data_append] at hd
  rcases List.append_eq_nil.mp hd with ⟨h1, _⟩
  rcases List.append_eq_nil.mp h1 with ⟨_, h2⟩
  rw [String.ext_iff]
  exact h2

/-- C3. `DefaultConfig()` sets `MaxBatchBytes` to 4 MiB, the soft
`SendInterval` to 5 s, `HardInterval` to 10 s and `PollInterval` to
500 ms (durations in nanoseconds). -/
theorem defaultConfig_values :
    DefaultConfig.MaxBatchBytes = 4 * 2 ^ 20 ∧
    DefaultConfig.SendInterval = 5 * 10 ^ 9 ∧
    DefaultConfig.HardInterval = 10 * 10 ^ 9 ∧
    DefaultConfig.PollInterval = 500 * 10 ^ 6 := by
  refine ⟨by decide, by decide, by decide, by decide⟩

/-- C5. `State.CanStart` holds exactly on `StateStopped` and `StateCrashed`:
it is `true` on those two states, `false` on `Starting`, `Running` and
`Stopping`, and for every `State` value it is `true` iff the value is
`StateStopped` or `StateCrashed`. -/
theorem canStart_iff :
    canStart StateStopped = true ∧
    canStart StateCrashed = true ∧
    canStart StateStarting = false ∧
    canStart StateRunning = false ∧
    canStart StateStopping = false ∧
    ∀ s : Int, canStart s = true ↔ (s = StateStopped ∨ s = StateCrashed) := by
  refine ⟨by decide, by decide, by decide, by decide, by decide, ?_⟩
  intro s
  simp [canStart]

/-- C8. The lifecycle `State` constants are exactly the five values
0,1,2,3,4 (so `StateStopped` is the zero — initial — value), `String()`
maps each of the five to its name, and every other value to `"Unknown"`. -/
theorem state_space_and_string :
    [StateStopped, StateStarting, StateRunning, StateStopping, StateCrashed]
      = [0, 1, 2, 3, 4] ∧
    stateString StateStopped = "Stopped" ∧
    stateString StateStarting = "Starting" ∧
    stateString StateRunning = "Running" ∧
    stateString StateStopping = "Stopping" ∧
    stateString StateCrashed = "Crashed" ∧
    ∀ s : Int, s ≠ StateStopped → s ≠ StateStarting → s ≠ StateRunning →
      s ≠ StateStopping → s ≠ StateCrashed → stateString s = "Unknown" := by
  refine ⟨rfl, by decide, by decide, by decide, by decide, by decide, ?_⟩
  intro s h0 h1 h2 h3 h4
  simp [stateString, h0, h1, h2, h3, h4]

/-- Witness for C8 at the concrete non-state value 99. -/
theorem state_space_and_string_witness :
    (99 : Int) ≠ StateStopped ∧ stateString 99 = "Unknown" := by
  refine ⟨by decide, ?_⟩
  exact state_space_and_string.2.2.2.2.2.2 99 (by decide) (by decide) (by decide)
    (by decide) (by decide)

/-- C9. The n-th successful `FileSender.Send` (counting from 1) writes to
the file `"batch_" + string(rune('0'+n)) + ".json"`, and for every n ≥ 10
the computed rune `'0'+n` is not a decimal digit. -/
theorem fileSender_batch_names :
    (∀ k : Nat, (runSends k).1 = k) ∧
    (∀ n k : Nat, 1 ≤ n → n ≤ k →
      (runSends k).2[n - 1]? = some (batchFileName n)) ∧
    (∀ n : Nat, 10 ≤ n → ¬ isDecimalDigitCode (batchFileRuneCode n)) := by
  have hcnt : ∀ k : Nat, (runSends k).1 = k := by
    intro k
    induction k with
    | zero => rfl
    | succ k ih => simp [runSends, fileSenderSend, ih]
  have hlen : ∀ k : Nat, (runSends k).2.length = k := by
    intro k
    induction k with
    | zero => rfl
    | succ k ih => simp [runSends, fileSenderSend, ih]
  refine ⟨hcnt, ?_, ?_⟩
  · intro n k h1 hk
    induction k with
    | zero => omega
    | succ k ih =>
      rcases Nat.lt_or_ge n (k + 1) with hlt | hge
      · have hidx : n - 1 < (runSends k).2.length := by
          rw [hlen]
          omega
        simp only [runSends]
        rw [List.getElem?_append_left hidx]
        exact ih (by omega)
      · have hn : n = k + 1 := by omega
        subst hn
        have hidx : (runSends k).2.length ≤ k + 1 - 1 := by
          rw [hlen]
          omega
        simp only [runSends]
        rw [List.getElem?_append_right hidx, hlen]
        simp [fileSenderSend, hcnt k]
  · intro n hn h
    unfold isDecimalDigitCode batchFileRuneCode at h
    have h0 : '0'.toNat = 48 := by decide
    have h9 : '9'.toNat = 57 := by decide
    rw [h0, h9] at h
    omega

/-- C4. `Config.Validate` returns an error wrapping `ErrInvalidConfig` iff
both `WALDir` and `NodeHome` are empty, or `PollInterval ≤ 0`, or
`SendInterval ≤ 0`; with `WALDir` or `NodeHome` set and positive poll and
send intervals it returns the normalized config with no error. -/
theorem validate_invalidConfig_iff :
    ∀ c : Config,
      ((∃ msg, Validate c = Except.error (ConfigError.invalidConfig msg)) ↔
        ((c.WALDir = "" ∧ c.NodeHome = "") ∨ c.PollInterval ≤ 0 ∨ c.SendInterval ≤ 0)) ∧
      ((c.WALDir ≠ "" ∨ c.NodeHome ≠ "") → 0 < c.PollInterval → 0 < c.SendInterval →
        Validate c = Except.ok (normalizeConfig c)) := by
  intro c
  unfold Validate
  rw [normalizeConfig_PollInterval, normalizeConfig_SendInterval]
  split_ifs with h1 h2 h3
  · refine ⟨⟨fun _ => Or.inl h1, fun _ => ⟨_, rfl⟩⟩, ?_⟩
    intro hne _ _
    tauto
  · refine ⟨⟨fun _ => Or.inr (Or.inl h2), fun _ => ⟨_, rfl⟩⟩, ?_⟩
    intro _ hp _
    omega
  · refine ⟨⟨fun _ => Or.inr (Or.inr h3), fun _ => ⟨_, rfl⟩⟩, ?_⟩
    intro _ _ hs
    omega
  · refine ⟨⟨?_, ?_⟩, fun _ _ _ => rfl⟩
    · rintro ⟨msg, h⟩
      exact absurd h (by simp)
    · rintro (h | h | h)
      · exact absurd h h1
      · exact absurd h h2
      · exact absurd h h3

/-- Witness for C4: a config with `WALDir` set and positive intervals
validates with no error, and its normalization is the expected concrete
config. -/
theorem validate_invalidConfig_iff_witness :
    Validate cfgWitness = Except.ok (normalizeConfig cfgWitness) ∧
    normalizeConfig cfgWitness = cfgWitnessOut := by
  refine ⟨(validate_invalidConfig_iff cfgWitness).2 (Or.inl (by decide)) (by decide)
    (by decide), by rfl⟩

/-- C10 counterexample: `Validate` accepts `cfgSlash` (whose `ServiceURL` is
`"h//"`) and the returned `ServiceURL` is `"h/"`, which still ends with a
`'/'` character — refuting the claim that after a nil-returning `Validate`
the `ServiceURL` never ends with `'/'`. -/
theorem validate_trailing_slash_counterexample :
    Validate cfgSlash = Except.ok cfgSlashOut ∧
    cfgSlashOut.ServiceURL = "h/" ∧
    "h/".back = '/' := by
  refine ⟨by rfl, by rfl, by decide⟩

/-- C10 (amended). Whenever `Config.Validate` returns nil: `WALDir` is
non-empty (derived from `NodeHome` and `NodeID` when it was unset),
`StateDir` is non-empty (defaulting to the derived `WALDir`), `ServiceURL`
defaults to `https://api.apphash.io` when empty and then has exactly one
trailing `'/'` stripped if present (so it may still end with `'/'`, or
become empty, when the input ended with more than one slash or was exactly
`"/"`); no other config fields are modified. -/
theorem validate_normalization_amended :
    ∀ c c' : Config, Validate c = Except.ok c' →
      c'.WALDir ≠ "" ∧
      (c.WALDir ≠ "" → c'.WALDir = c.WALDir) ∧
      (c.WALDir = "" → c.NodeID ≠ "" →
        c'.WALDir = c.NodeHome ++ "/data/log.wal/node-" ++ c.NodeID) ∧
      (c.WALDir = "" → c.NodeID = "" →
        c'.WALDir = c.NodeHome ++ "/data/log.wal/node-default") ∧
      c'.StateDir ≠ "" ∧
      (c.StateDir ≠ "" → c'.StateDir = c.StateDir) ∧
      (c.StateDir = "" → c'.StateDir = c'.WALDir) ∧
      c'.ServiceURL =
        specStripOneTrailingSlash
          (if c.ServiceURL = "" then DefaultServiceURL else c.ServiceURL) ∧
      c'.NodeHome = c.NodeHome ∧ c'.AuthKey = c.AuthKey ∧ c'.ChainID = c.ChainID ∧
      c'.NodeID = c.NodeID ∧ c'.PollInterval = c.PollInterval ∧
      c'.SendInterval = c.SendInterval ∧ c'.HardInterval = c.HardInterval ∧
      c'.HTTPTimeout = c.HTTPTimeout ∧ c'.MaxBatchBytes = c.MaxBatchBytes ∧
      c'.CPUThreshold = c.CPUThreshold ∧ c'.NetThreshold = c.NetThreshold ∧
      c'.Iface = c.Iface ∧ c'.IfaceSpeedMbps = c.IfaceSpeedMbps ∧
      c'.Verify = c.Verify ∧ c'.Meta = c.Meta ∧ c'.Once = c.Once := by
  intro c c' h
  unfold Validate at h
  split_ifs at h with h1 h2 h3
  rw [Except.ok.injEq] at h
  subst h
  have hwal : (deriveWALDir c).WALDir ≠ "" := by
    rw [deriveWALDir_WALDir]
    split_ifs with hw hn
    · exact string_append3_ne_empty _ _ _ (by decide)
    · exact string_append2_ne_empty _ _ (by decide)
    · tauto
  have hwd := normalizeConfig_WALDir c
  have hsd := normalizeConfig_StateDir c
  have hsu := normalizeConfig_ServiceURL c
  have hpres := normalizeConfig_preserved c
  refine ⟨?_, ?_, ?_, ?_, ?_, ?_, ?_, hsu, hpres.1, hpres.2.1, hpres.2.2.1,
    hpres.2.2.2.1, normalizeConfig_PollInterval c, normalizeConfig_SendInterval c,
    hpres.2.2.2.2.1, hpres.2.2.2.2.2.1, hpres.2.2.2.2.2.2.1, hpres.2.2.2.2.2.2.2.1,
    hpres.2.2.2.2.2.2.2.2.1, hpres.2.2.2.2.2.2.2.2.2.1,
    hpres.2.2.2.2.2.2.2.2.2.2.1, hpres.2.2.2.2.2.2.2.2.2.2.2.1,
    hpres.2.2.2.2.2.2.2.2.2.2.2.2.1, hpres.2.2.2.2.2.2.2.2.2.2.2.2.2⟩
  · rw [hwd]
    exact hwal
  · intro hne
    rw [hwd, deriveWALDir_WALDir]
    simp [hne]
  · intro hw hn
    rw [hwd, deriveWALDir_WALDir]
    simp [hw, hn]
  · intro hw hn
    rw [hwd, deriveWALDir_WALDir]
    simp [hw, hn]
  · rw [hsd]
    split_ifs with hc
    · exact hwal
    · simp only [not_and, not_not] at hc
      intro habs
      exact hwal (hc habs)
  · intro hne
    rw [hsd]
    simp [hne]
  · intro hz
    rw [hsd, hwd]
    simp [hz, hwal]

/-- Witness for C10 (amended) at the counterexample config itself. -/
theorem validate_normalization_amended_witness :
    Validate cfgSlash = Except.ok cfgSlashOut ∧
    cfgSlashOut.ServiceURL =
      specStripOneTrailingSlash
        (if cfgSlash.ServiceURL = "" then DefaultServiceURL else cfgSlash.ServiceURL) := by
  have hv : Validate cfgSlash = Except.ok cfgSlashOut := by rfl
  exact ⟨hv, (validate_normalization_amended cfgSlash cfgSlashOut hv).2.2.2.2.2.2.2.1⟩

/-- Witness for C9 at n = 3 (name of the third send) and n = 10 (first
broken counter). -/
theorem fileSender_batch_names_witness :
    (runSends 3).2[2]? = some (batchFileName 3) ∧
    ¬ isDecimalDigitCode (batchFileRuneCode 10) := by
  refine ⟨?_, ?_⟩
  · exact fileSender_batch_names.2.1 3 3 (by decide) (by decide)
  · exact fileSender_batch_names.2.2 10 (by decide)

/-- C7. The on-disk cursor is one JSON document whose keys are exactly the
snake_case names `idx_path, idx_offset, cur_gz, last_file, last_frame,
last_commit_at, last_send_at`; decoding recovers every field unchanged, and
the pre-existing state file of the compatibility test decodes to its
documented values. -/
theorem cursor_file_compat :
    (∀ s : PersistedState, (encodeState s).map Prod.fst =
      ["idx_path", "idx_offset", "cur_gz", "last_file", "last_frame",
       "last_commit_at", "last_send_at"]) ∧
    (∀ s : PersistedState, decodeState (encodeState s) = some s) ∧
    decodeState oldStateDoc =
      some ⟨"/data/2025-01-01/seg-000001.wal.idx", 12345, "seg-000001.wal.gz",
        "seg-000001.wal.gz", 42, "2025-01-01T12:00:00Z", "2025-01-01T12:00:00Z"⟩ := by
  refine ⟨fun s => rfl, fun s => ?_, by rfl⟩
  have h : ¬ ((s.lastFrame : Int) < 0) := Int.not_lt.mpr (Int.natCast_nonneg _)
  simp [decodeState, encodeState, getStr, getInt, getUNat, jLookup, h]

theorem cursorLE_refl (a : PersistedState) : cursorLE a a :=
  Or.inr ⟨rfl, le_refl _⟩

theorem cursorLE_trans {a b c : PersistedState} (hab : cursorLE a b)
    (hbc : cursorLE b c) : cursorLE a c := by
  rcases hab with h1 | ⟨h1, h1f⟩ <;> rcases hbc with h2 | ⟨h2, h2f⟩
  · exact Or.inl (lt_trans h1 h2)
  · exact Or.inl (h2 ▸ h1)
  · exact Or.inl (h1 ▸ h2)
  · exact Or.inr ⟨h1.trans h2, le_trans h1f h2f⟩

theorem runCommits_lower_bound (ops : List PersistedState) (c0 : PersistedState) :
    ∃ c', runCommits ops (some c0) = some c' ∧ cursorLE c0 c' := by
  induction ops generalizing c0 with
  | nil => exact ⟨c0, rfl, cursorLE_refl c0⟩
  | cons o rest ih =>
    by_cases h : cursorLE c0 o
    · have hc : commit o (some c0) = Except.ok (some o) := by
        simp [commit, h]
      rcases ih o with ⟨c', hr, hle⟩
      refine ⟨c', ?_, cursorLE_trans h hle⟩
      simp [runCommits, hc, hr]
    · have hc : commit o (some c0) = Except.error StoreError.fatalRewind := by
        simp [commit, h]
      rcases ih c0 with ⟨c', hr, hle⟩
      refine ⟨c', ?_, hle⟩
      simp [runCommits, hc, hr]

/-- C1. Forward-only cursor: `Commit` rejects as fatal any cursor strictly
below the current on-disk value, and after a successful `commit c`, every
later `load` — across any sequence of further commit attempts — returns a
cursor ≥ `c`; the on-disk cursor is never rewound. -/
theorem cursor_forward_only :
    (∀ c cur : PersistedState, ¬ cursorLE cur c →
      commit c (some cur) = Except.error StoreError.fatalRewind) ∧
    (∀ st st' : Option PersistedState, ∀ c : PersistedState,
      commit c st = Except.ok st' → ∀ ops : List PersistedState,
      ∃ c', load (runCommits ops st') = some c' ∧ cursorLE c c') := by
  constructor
  · intro c cur h
    simp [commit, h]
  · intro st st' c h ops
    have hst : st' = some c := by
      cases st with
      | none =>
        simpa [commit] using h.symm
      | some cur =>
        by_cases hc : cursorLE cur c
        · simpa [commit, hc] using h.symm
        · simp [commit, hc] at h
    subst hst
    exact runCommits_lower_bound ops c

/-- Witness for C1: committing frame 10 over frame 5 succeeds, a later
attempt to rewind to frame 5 is rejected as fatal, and after it `load`
still returns a cursor ≥ frame 10. -/
theorem cursor_forward_only_witness :
    commit cursorFrame5 (some cursorFrame10) = Except.error StoreError.fatalRewind ∧
    (∃ c', load (runCommits [cursorFrame5] (some cursorFrame10)) = some c' ∧
      cursorLE cursorFrame10 c') := by
  have hneg : ¬ cursorLE cursorFrame10 cursorFrame5 := by
    rintro (h | ⟨h, hf⟩)
    · exact lt_irrefl _ h
    · exact absurd hf (by decide)
  have hpos : cursorLE cursorFrame5 cursorFrame10 := Or.inr ⟨rfl, by decide⟩
  have hcommit : commit cursorFrame10 (some cursorFrame5) = Except.ok (some cursorFrame10) := by
    simp [commit, hpos]
  exact ⟨cursor_forward_only.1 cursorFrame5 cursorFrame10 hneg,
    cursor_forward_only.2 (some cursorFrame5) (some cursorFrame10) cursorFrame10
      hcommit [cursorFrame5]⟩

/-! ### Batcher lemmas -/

theorem addFrame_maxBytes (b : Batcher) (f : Frame) :
    ((addFrame b f).2).maxBytes = b.maxBytes := by
  unfold addFrame
  split_ifs <;> rfl

theorem addFrame_invariant (b : Batcher) (f : Frame)
    (h : batchWithinBound b.maxBytes b.frames) :
    batchWithinBound b.maxBytes ((addFrame b f).2).frames := by
  unfold addFrame
  split_ifs with h1 h2
  · exact Or.inr rfl
  · exact h
  · refine Or.inl ?_
    have : ((b.frames ++ [f]).map frameBytes).sum = totalBytes b + frameBytes f := by
      simp [totalBytes]
    rw [this]
    omega

theorem runBatchOps_bound (ops : List BatchOp) :
    ∀ b : Batcher, batchWithinBound b.maxBytes b.frames →
      ∀ out ∈ (runBatchOps b ops).1, batchWithinBound b.maxBytes out := by
  induction ops with
  | nil =>
    intro b _ out hout
    simp [runBatchOps] at hout
  | cons op rest ih =>
    intro b hb out hout
    cases op with
    | add f =>
      have hinv : batchWithinBound ((addFrame b f).2).maxBytes ((addFrame b f).2).frames := by
        rw [addFrame_maxBytes]
        exact addFrame_invariant b f hb
      have := ih ((addFrame b f).2) hinv
      rw [addFrame_maxBytes] at this
      exact this out hout
    | flush =>
      simp only [runBatchOps] at hout
      rcases List.mem_cons.mp hout with hout | hout
      · subst hout
        exact hb
      · have hreset : batchWithinBound ((flushBatch b).2).maxBytes ((flushBatch b).2).frames := by
          simp [flushBatch, batchWithinBound]
        have := ih ((flushBatch b).2) hreset out hout
        simpa [flushBatch] using this

/-- C2. A frame larger than `max_bytes` is accepted into an empty batch
(no error), any further `Add` while it is in flight reports `Full` and
leaves the batch unchanged — so the oversized frame ships alone as a
one-frame batch — and every batch closed by the driver has total
compressed bytes ≤ `max_bytes` unless it contains exactly one frame. -/
theorem batcher_size_bound :
    (∀ (b : Batcher) (f : Frame), b.frames = [] →
      addFrame b f = (AddResult.accepted, { b with frames := [f] })) ∧
    (∀ (b : Batcher) (f g : Frame), b.frames = [f] → b.maxBytes < frameBytes f →
      addFrame b g = (AddResult.full, b)) ∧
    (∀ (maxB : Nat) (ops : List BatchOp),
      ∀ out ∈ (runBatchOps (emptyBatcher maxB) ops).1, batchWithinBound maxB out) := by
  refine ⟨?_, ?_, ?_⟩
  · intro b f h
    unfold addFrame
    rw [if_pos h]
  · intro b f g h hov
    have hne : b.frames ≠ [] := by
      simp [h]
    have hcond : b.maxBytes < totalBytes b + frameBytes g := by
      have ht : totalBytes b = frameBytes f := by
        simp [totalBytes, h]
      omega
    unfold addFrame
    rw [if_neg hne, if_pos hcond]
  · intro maxB ops out hout
    exact runBatchOps_bound ops (emptyBatcher maxB) (Or.inl (Nat.zero_le _)) out hout

/-- Witness for C2 with `max_bytes = 4` and a 5-byte frame: the oversized
frame is accepted into the empty batch, the next `Add` is `Full`, and the
closed batches of a concrete run are within bound. -/
theorem batcher_size_bound_witness :
    addFrame (emptyBatcher 4) bigFrame
      = (AddResult.accepted, { emptyBatcher 4 with frames := [bigFrame] }) ∧
    addFrame ⟨4, [bigFrame]⟩ smallFrame = (AddResult.full, ⟨4, [bigFrame]⟩) ∧
    batchWithinBound 4 [bigFrame] := by
  refine ⟨?_, ?_, ?_⟩
  · exact batcher_size_bound.1 (emptyBatcher 4) bigFrame rfl
  · exact batcher_size_bound.2.1 ⟨4, [bigFrame]⟩ bigFrame smallFrame rfl (by decide)
  · exact batcher_size_bound.2.2 4 [BatchOp.add bigFrame, BatchOp.flush] [bigFrame]
      (by decide)

/-! ### Gate hook lemmas -/

theorem gateEffectiveProceed_eq_true (g : GateResult) :
    gateEffectiveProceed g = true ↔ g.proceed = true ∧ g.err = none := by
  cases hg : g.err <;> simp [gateEffectiveProceed, hg]

theorem beforeSendDecision_eq_true (gs : List GateResult) :
    beforeSendDecision gs = true ↔ ∀ g ∈ gs, g.proceed = true ∧ g.err = none := by
  simp [beforeSendDecision, List.all_eq_true, gateEffectiveProceed_eq_true]

/-- C6. Gate composition is logical AND on `proceed`; a gate whose
`BeforeSend` returns an error counts as `proceed = false`; the send step
can only crash on a `Fatal` sender verdict, never because of a gate error;
and `AfterSend` hook errors never change the step's outcome. -/
theorem gate_errors_nonfatal :
    (∀ gs : List GateResult,
      beforeSendDecision gs = true ↔ ∀ g ∈ gs, g.proceed = true ∧ g.err = none) ∧
    (∀ (g : GateResult) (gs : List GateResult), g ∈ gs → g.err ≠ none →
      beforeSendDecision gs = false) ∧
    (∀ (gates : List GateResult) (hardDue : Bool) (outcome : SendOutcome)
      (errs : List (Option String)),
      (sendCycle gates hardDue outcome errs).1 = CycleResult.crashed →
        outcome = SendOutcome.fatal) ∧
    (∀ (gates : List GateResult) (hardDue : Bool) (outcome : SendOutcome)
      (errs errs' : List (Option String)),
      (sendCycle gates hardDue outcome errs).1
        = (sendCycle gates hardDue outcome errs').1) := by
  refine ⟨beforeSendDecision_eq_true, ?_, ?_, ?_⟩
  · intro g gs hmem herr
    cases hd : beforeSendDecision gs with
    | false => rfl
    | true =>
      rcases (beforeSendDecision_eq_true gs).mp hd g hmem with ⟨_, hnone⟩
      exact absurd hnone herr
  · intro gates hardDue outcome errs h
    unfold sendCycle at h
    split_ifs at h
    cases outcome <;> simp_all
  · intro gates hardDue outcome errs errs'
    unfold sendCycle
    split_ifs <;> cases outcome <;> rfl

/-- Witness for C6: one erroring gate vetoes the send, and a crashed cycle
at a concrete input indeed had a `Fatal` sender verdict. -/
theorem gate_errors_nonfatal_witness :
    beforeSendDecision [⟨true, some "resource gate failure"⟩] = false ∧
    SendOutcome.fatal = SendOutcome.fatal := by
  constructor
  · exact gate_errors_nonfatal.2.1 ⟨true, some "resource gate failure"⟩
      [⟨true, some "resource gate failure"⟩] (by simp) (by simp)
  · exact gate_errors_nonfatal.2.2.1 [⟨true, some "resource gate failure"⟩] true
      SendOutcome.fatal [] (by rfl)

end Walship
